import Mathlib

/-!
# CashyCat core calculations: a shallow embedding

This file embeds the pure calculation core of the CashyCat personal-finance
application (budget resolver, tracking-period calculator, purchase aggregator,
purchase filter, and form-validation paths) as executable Lean definitions and
proves properties about them.

Conventions of the embedding:
* Monetary and percentage values are rationals (`ℚ`); nullable numeric fields
  are `Option ℚ`.
* JavaScript number truthiness (`if (x)` on a `number | null` field) is
  `numTruthy`: `null` and `0` are falsy, every other number is truthy.
* Instants are integer milliseconds since the Unix epoch (local time is
  modelled as UTC; the source uses local time consistently on both sides of
  every comparison, so a single timeline is faithful).
* Dates constructed by `new Date(year, month, day, h, m, s, ms)` are modelled
  by `dateMs`, including JavaScript's normalization of out-of-range month and
  day arguments (month 12 rolls into the next year, day 0 is the last day of
  the previous month, ...).
-/

namespace CashyCat

/-- A budget row as read by the dashboard: the two nullable allocation
fields used by `calculateBudgetAmount` (`fixed_amount`, `percentage_amount`). -/
structure Budget where
  fixed_amount : Option ℚ
  percentage_amount : Option ℚ
  deriving DecidableEq

/-- JavaScript truthiness of a `number | null` value: `null` and `0` are
falsy, any other number is truthy. -/
def numTruthy : Option ℚ → Bool
  | none => false
  | some x => decide (x ≠ 0)

/-- `calculateBudgetAmount` from the dashboard component: resolves a budget's
effective ceiling from its configuration and the user's monthly income.
Branches on JavaScript truthiness of the two fields, exactly as the source:

    if (budget.fixed_amount && budget.percentage_amount) min(fixed, pct)
    else if (budget.fixed_amount) fixed
    else if (budget.percentage_amount) pct
    else 0
-/
def calculateBudgetAmount (monthly_income : ℚ) (b : Budget) : ℚ :=
  if numTruthy b.fixed_amount && numTruthy b.percentage_amount then
    min (b.fixed_amount.getD 0) (monthly_income * b.percentage_amount.getD 0 / 100)
  else if numTruthy b.fixed_amount then
    b.fixed_amount.getD 0
  else if numTruthy b.percentage_amount then
    monthly_income * b.percentage_amount.getD 0 / 100
  else 0

/-- C1 fails as stated: a budget with both fields non-null but
`fixed_amount = 0` does not resolve to `min(fixed, income*pct/100)`.
With income 100, fixed 0, percentage 50 the code returns 50 (the percentage
part), while the claimed formula gives `min 0 50 = 0`. -/
theorem c1_hybrid_nonnull_counterexample :
    calculateBudgetAmount 100 ⟨some 0, some 50⟩ ≠ min 0 (100 * 50 / 100) := by
  norm_num [calculateBudgetAmount, numTruthy]

/-- C1 (amended): for every budget whose `fixed_amount` and
`percentage_amount` are both set *and nonzero* (JavaScript-truthy), and every
monthly income, the resolver returns exactly
`min (fixed) (income * pct / 100)`. -/
theorem c1_hybrid_min (f p i : ℚ) (hf : f ≠ 0) (hp : p ≠ 0) :
    calculateBudgetAmount i ⟨some f, some p⟩ = min f (i * p / 100) := by
  simp [calculateBudgetAmount, numTruthy, hf, hp]

/-- Witness for `c1_hybrid_min` at the spec's own scenario: income 3000,
fixed 400, percentage 10 resolves to `min 400 300 = 300`. -/
theorem c1_hybrid_min_witness :
    (400 : ℚ) ≠ 0 ∧ (10 : ℚ) ≠ 0 ∧
      calculateBudgetAmount 3000 ⟨some 400, some 10⟩ = min 400 (3000 * 10 / 100) :=
  ⟨by norm_num, by norm_num, c1_hybrid_min 400 10 3000 (by norm_num) (by norm_num)⟩

/-- C6: the resolved ceiling is monotone non-decreasing in `monthly_income`
whenever `percentage_amount` is set (to a value in the data model's `[0,100]`
range — only `0 ≤ p` is needed), for any `fixed_amount`; and it is constant in
`monthly_income` when only `fixed_amount` is set. -/
theorem c6_monotone_in_income :
    (∀ (f : Option ℚ) (p i j : ℚ), 0 ≤ p → i ≤ j →
      calculateBudgetAmount i ⟨f, some p⟩ ≤ calculateBudgetAmount j ⟨f, some p⟩) ∧
    (∀ f i j : ℚ,
      calculateBudgetAmount i ⟨some f, none⟩ = calculateBudgetAmount j ⟨some f, none⟩) := by
  constructor
  · intro f p i j hp hij
    have hq : i * p / 100 ≤ j * p / 100 := by gcongr
    rcases eq_or_ne p 0 with h0 | h0
    · simp [calculateBudgetAmount, numTruthy, h0]
    · match f with
      | none =>
        simpa [calculateBudgetAmount, numTruthy, h0] using hq
      | some fv =>
        rcases eq_or_ne fv 0 with hf | hf
        · simpa [calculateBudgetAmount, numTruthy, h0, hf] using hq
        · simpa [calculateBudgetAmount, numTruthy, h0, hf] using
            min_le_min (le_refl fv) hq
  · intro f i j
    simp [calculateBudgetAmount, numTruthy]

/-- Witness for `c6_monotone_in_income`: a 10% budget's ceiling at income 1000
is at most its ceiling at income 2000. -/
theorem c6_monotone_in_income_witness :
    (0 : ℚ) ≤ 10 ∧ (1000 : ℚ) ≤ 2000 ∧
      calculateBudgetAmount 1000 ⟨none, some 10⟩ ≤ calculateBudgetAmount 2000 ⟨none, some 10⟩ :=
  ⟨by norm_num, by norm_num,
    c6_monotone_in_income.1 none 10 1000 2000 (by norm_num) (by norm_num)⟩

/-- C10: the resolver treats a field whose value is `0` the same as an unset
(`null`) field, because it branches on truthiness: with `fixed_amount = 0` and
`percentage_amount = p` the ceiling is `income * p / 100` (not
`min 0 _ = 0`), and with `percentage_amount = 0` and `fixed_amount = f` the
ceiling is `f`; in each case the result coincides with the corresponding
`null`-field budget. -/
theorem c10_zero_behaves_as_null :
    ∀ i f p : ℚ,
      calculateBudgetAmount i ⟨some 0, some p⟩ = i * p / 100 ∧
      calculateBudgetAmount i ⟨some 0, some p⟩ = calculateBudgetAmount i ⟨none, some p⟩ ∧
      calculateBudgetAmount i ⟨some f, some 0⟩ = f ∧
      calculateBudgetAmount i ⟨some f, some 0⟩ = calculateBudgetAmount i ⟨some f, none⟩ := by
  intro i f p
  refine ⟨?_, ?_, ?_, ?_⟩ <;>
    rcases eq_or_ne p 0 with hp | hp <;>
    rcases eq_or_ne f 0 with hf | hf <;>
    simp [calculateBudgetAmount, numTruthy, hp, hf]

/-! ## Calendar model for the JavaScript `Date` constructor

`new Date(y, m, d, hh, mi, ss, ms)` in JavaScript normalizes any integer
month (year `y + ⌊m/12⌋`, month `m mod 12`) and any integer day (day 1 is the
first of the month, day 0 the last day of the previous month, ...).  We model
this on a single timeline of milliseconds since the Unix epoch
(1970-01-01T00:00) with a proleptic Gregorian calendar: `firstOfMonthDays k`
is the day number of the first day of the month with index `k`, where index 0
is January 1970 and the index of month `m` (0-based) of year `y` is
`12 * (y - 1970) + m`. -/

/-- Gregorian leap-year test. -/
def isLeap (y : ℤ) : Bool :=
  (y % 4 == 0 && y % 100 != 0) || y % 400 == 0

/-- Number of days of the month with month index `k`
(index 0 = January 1970). -/
def monthLength (k : ℤ) : ℤ :=
  if k % 12 = 1 then (if isLeap (1970 + k / 12) then 29 else 28)
  else if k % 12 = 3 ∨ k % 12 = 5 ∨ k % 12 = 8 ∨ k % 12 = 10 then 30
  else 31

/-- Day number of the first of month index `n` for `n ≥ 0`
(day 0 = 1970-01-01). -/
def fomNat : ℕ → ℤ
  | 0 => 0
  | n + 1 => fomNat n + monthLength n

/-- Day number of the first of month index `-(n+1)` (months before 1970). -/
def fomNeg : ℕ → ℤ
  | 0 => -monthLength (-1)
  | n + 1 => fomNeg n - monthLength (-(n + 2 : ℤ))

/-- Day number (days since 1970-01-01) of the first day of month index `k`. -/
def firstOfMonthDays : ℤ → ℤ
  | .ofNat n => fomNat n
  | .negSucc n => fomNeg n

theorem firstOfMonthDays_succ (k : ℤ) :
    firstOfMonthDays (k + 1) = firstOfMonthDays k + monthLength k := by
  cases k with
  | ofNat n =>
      show firstOfMonthDays (Int.ofNat n + 1) = fomNat n + monthLength (Int.ofNat n)
      have h : (Int.ofNat n + 1 : ℤ) = Int.ofNat (n + 1) := rfl
      rw [h]
      rfl
  | negSucc n =>
      cases n with
      | zero =>
          have h : (Int.negSucc 0 + 1 : ℤ) = 0 := by decide
          rw [h]
          show (0 : ℤ) = -monthLength (-1) + monthLength (Int.negSucc 0)
          have h2 : (Int.negSucc 0 : ℤ) = -1 := by decide
          rw [h2]; ring
      | succ m =>
          have h : (Int.negSucc (m + 1) + 1 : ℤ) = Int.negSucc m := by
            rw [Int.negSucc_eq, Int.negSucc_eq]; push_cast; ring
          rw [h]
          show fomNeg m =
            fomNeg m - monthLength (-(m + 2 : ℤ)) + monthLength (Int.negSucc (m + 1))
          have h2 : (Int.negSucc (m + 1) : ℤ) = -(m + 2 : ℤ) := by
            rw [Int.negSucc_eq]; push_cast; ring
          rw [h2]; ring

theorem monthLength_ge_28 (k : ℤ) : 28 ≤ monthLength k := by
  unfold monthLength
  split
  · split <;> norm_num
  · split <;> norm_num

/-- The millisecond timestamp produced by
`new Date(y, m, d, hh, mi, ss, ms)` (0-based month `m`, both month and day
normalized the JavaScript way; local time modelled as UTC). -/
def dateMs (y m d hh mi ss ms : ℤ) : ℤ :=
  (firstOfMonthDays (12 * (y - 1970) + m) + (d - 1)) * 86400000 +
    hh * 3600000 + mi * 60000 + ss * 1000 + ms

/-- `getCurrentTrackingPeriod` from the dashboard component, with the current
instant supplied through the components the source extracts from it
(`getFullYear()`, `getMonth()` — 0-based, `getDate()`), returning the
`(periodStart, periodEnd)` millisecond timestamps:

    if (currentDay >= trackingStartDay)
      [ Date(y, m, tsd), Date(y, m+1, tsd-1, 23,59,59,999) ]
    else
      [ Date(y, m-1, tsd), Date(y, m, tsd-1, 23,59,59,999) ]
-/
def getCurrentTrackingPeriod (nowY nowM nowD tsd : ℤ) : ℤ × ℤ :=
  if tsd ≤ nowD then
    (dateMs nowY nowM tsd 0 0 0 0, dateMs nowY (nowM + 1) (tsd - 1) 23 59 59 999)
  else
    (dateMs nowY (nowM - 1) tsd 0 0 0 0, dateMs nowY nowM (tsd - 1) 23 59 59 999)

/-- A plain civil date-time (1-based month, in-range day) as epoch
milliseconds; used to state scenario results in calendar terms. -/
def civilMs (y mon d msOfDay : ℤ) : ℤ :=
  (firstOfMonthDays (12 * (y - 1970) + (mon - 1)) + (d - 1)) * 86400000 + msOfDay

set_option maxRecDepth 8000 in
/-- C2: the period calculator follows the spec's two-branch algorithm — if the
day-of-month of `now` is `≥ trackingStartDay` the period runs from
`trackingStartDay` of the current month at 00:00 to the last millisecond
(23:59:59.999, i.e. start-of-day + 86399999 ms) of day `trackingStartDay - 1`
of the next month, otherwise from `trackingStartDay` of the previous month to
the last millisecond of day `trackingStartDay - 1` of the current month — and
in particular, for `trackingStartDay = 15`: at now = 2024-03-10 the period is
[2024-02-15T00:00, 2024-03-14T23:59:59.999] and at now = 2024-03-20 it is
[2024-03-15T00:00, 2024-04-14T23:59:59.999] (checked both against the real
epoch-millisecond timestamps and against civil dates). -/
theorem c2_period_two_branches :
    (∀ nowY nowM nowD tsd : ℤ,
      getCurrentTrackingPeriod nowY nowM nowD tsd =
        if tsd ≤ nowD then
          (dateMs nowY nowM tsd 0 0 0 0,
           dateMs nowY (nowM + 1) (tsd - 1) 0 0 0 0 + 86399999)
        else
          (dateMs nowY (nowM - 1) tsd 0 0 0 0,
           dateMs nowY nowM (tsd - 1) 0 0 0 0 + 86399999)) ∧
    getCurrentTrackingPeriod 2024 2 10 15 = (1707955200000, 1710460799999) ∧
    getCurrentTrackingPeriod 2024 2 20 15 = (1710460800000, 1713139199999) ∧
    civilMs 2024 2 15 0 = 1707955200000 ∧
    civilMs 2024 3 14 86399999 = 1710460799999 ∧
    civilMs 2024 3 15 0 = 1710460800000 ∧
    civilMs 2024 4 14 86399999 = 1713139199999 := by
  refine ⟨?_, ?_, ?_, ?_, ?_, ?_, ?_⟩
  · intro nowY nowM nowD tsd
    rw [getCurrentTrackingPeriod]
    split <;> simp only [Prod.mk.injEq, dateMs] <;> exact ⟨trivial, by ring⟩
  · decide
  · decide
  · decide
  · decide
  · decide
  · decide

/-- C3: for every `trackingStartDay` in `[1, 28]` and every instant `now`
(given by a valid civil date and a time of day below 24h), the computed
period brackets `now` (`periodStart ≤ now ≤ periodEnd`), spans exactly the
length of the calendar month in which it starts minus the final millisecond
(`periodEnd + 1 = periodStart + monthLength · 86400000`), and `periodEnd` is
the last millisecond of the day before `trackingStartDay` of the month after
the starting month (`periodEnd + 1` is midnight of `trackingStartDay` of that
month) — covering the day-0 date construction when `trackingStartDay = 1`. -/
theorem c3_period_brackets_now :
    ∀ tsd nowY nowM nowD tod : ℤ,
      1 ≤ tsd → tsd ≤ 28 → 1 ≤ nowD →
      nowD ≤ monthLength (12 * (nowY - 1970) + nowM) →
      0 ≤ tod → tod ≤ 86399999 →
      (getCurrentTrackingPeriod nowY nowM nowD tsd).1 ≤
          dateMs nowY nowM nowD 0 0 0 0 + tod ∧
        dateMs nowY nowM nowD 0 0 0 0 + tod ≤
          (getCurrentTrackingPeriod nowY nowM nowD tsd).2 ∧
        (getCurrentTrackingPeriod nowY nowM nowD tsd).2 + 1 =
          (getCurrentTrackingPeriod nowY nowM nowD tsd).1 +
            monthLength (12 * (nowY - 1970) +
              (if tsd ≤ nowD then nowM else nowM - 1)) * 86400000 ∧
        (getCurrentTrackingPeriod nowY nowM nowD tsd).2 + 1 =
          dateMs nowY (if tsd ≤ nowD then nowM + 1 else nowM) tsd 0 0 0 0 := by
  intro tsd y m d tod h1 h2 h3 h4 h5 h6
  have hs1 := firstOfMonthDays_succ (12 * (y - 1970) + m)
  have hs0 := firstOfMonthDays_succ (12 * (y - 1970) + m - 1)
  rw [show 12 * (y - 1970) + m - 1 + 1 = 12 * (y - 1970) + m from by ring] at hs0
  have h28 := monthLength_ge_28 (12 * (y - 1970) + m - 1)
  by_cases hbr : tsd ≤ d
  · simp only [getCurrentTrackingPeriod, hbr, if_true, dateMs]
    rw [show 12 * (y - 1970) + (m + 1) = 12 * (y - 1970) + m + 1 from by ring, hs1]
    refine ⟨?_, ?_, ?_, ?_⟩ <;> omega
  · simp only [getCurrentTrackingPeriod, hbr, if_false, dateMs]
    rw [show 12 * (y - 1970) + (m - 1) = 12 * (y - 1970) + m - 1 from by ring]
    refine ⟨?_, ?_, ?_, ?_⟩ <;> omega

/-- Witness for `c3_period_brackets_now` at `trackingStartDay = 15`,
now = 2024-03-10T00:00: the hypotheses hold and `periodStart ≤ now`. -/
theorem c3_period_brackets_now_witness :
    (1 : ℤ) ≤ 15 ∧ (15 : ℤ) ≤ 28 ∧ (1 : ℤ) ≤ 10 ∧
      (10 : ℤ) ≤ monthLength (12 * (2024 - 1970) + 2) ∧
      (0 : ℤ) ≤ 0 ∧ (0 : ℤ) ≤ 86399999 ∧
      (getCurrentTrackingPeriod 2024 2 10 15).1 ≤ dateMs 2024 2 10 0 0 0 0 + 0 :=
  ⟨by norm_num, by norm_num, by norm_num, by decide, by norm_num, by norm_num,
    (c3_period_brackets_now 15 2024 2 10 0 (by norm_num) (by norm_num)
      (by norm_num) (by decide) (by norm_num) (by norm_num)).1⟩

/-! ## Purchases: aggregation and filtering -/

/-- The `payment_method` column: `"bank" | "credit" | "cash"`. -/
inductive PaymentMethod where
  | bank
  | credit
  | cash
  deriving DecidableEq

/-- The string stored for a payment method (the TypeScript union is a string
union; the filter compares it to the criterion string with `===`). -/
def pmString : PaymentMethod → String
  | .bank => "bank"
  | .credit => "credit"
  | .cash => "cash"

/-- A purchase row; `purchase_date` is the epoch-millisecond instant the
stored date string denotes (the source parses it with `new Date(...)` before
comparing). -/
structure Purchase where
  id : String
  budget_id : String
  amount : ℚ
  description : String
  payment_method : PaymentMethod
  purchase_date : ℤ
  deriving DecidableEq

/-- The accumulator of `calculateTotalsByPaymentMethod`:
`{ bank: 0, credit: 0, cash: 0 }`. -/
structure Totals where
  bank : ℚ
  credit : ℚ
  cash : ℚ
  deriving DecidableEq

/-- One step of the source's `forEach`:
`totals[purchase.payment_method] += purchase.amount`. -/
def addToTotals (t : Totals) (p : Purchase) : Totals :=
  match p.payment_method with
  | .bank => { t with bank := t.bank + p.amount }
  | .credit => { t with credit := t.credit + p.amount }
  | .cash => { t with cash := t.cash + p.amount }

/-- `calculateTotalsByPaymentMethod` from the dashboard component. -/
def calculateTotalsByPaymentMethod (purchases : List Purchase) : Totals :=
  purchases.foldl addToTotals ⟨0, 0, 0⟩

/-- `totalSpent` from the dashboard component:
`purchases.reduce((sum, p) => sum + p.amount, 0)`. -/
def totalSpent (purchases : List Purchase) : ℚ :=
  purchases.foldl (fun sum p => sum + p.amount) 0

theorem foldl_addToTotals_sum (ps : List Purchase) (t : Totals) :
    (ps.foldl addToTotals t).bank + (ps.foldl addToTotals t).credit +
        (ps.foldl addToTotals t).cash =
      t.bank + t.credit + t.cash + (ps.map Purchase.amount).sum := by
  induction ps generalizing t with
  | nil => simp
  | cons p ps ih =>
      simp only [List.foldl_cons, List.map_cons, List.sum_cons]
      rw [ih]
      cases hpm : p.payment_method <;> simp [addToTotals, hpm] <;> ring

theorem foldl_amount_sum (ps : List Purchase) (s : ℚ) :
    ps.foldl (fun sum p => sum + p.amount) s = s + (ps.map Purchase.amount).sum := by
  induction ps generalizing s with
  | nil => simp
  | cons p ps ih =>
      simp only [List.foldl_cons, List.map_cons, List.sum_cons]
      rw [ih]
      ring

/-- C4: the aggregator yields all-zero totals on the empty purchase list
(per-method totals and overall total), and for every purchase list the sum of
the three per-payment-method totals equals `totalSpent`. -/
theorem c4_totals_sum_to_totalSpent :
    (calculateTotalsByPaymentMethod [] = ⟨0, 0, 0⟩ ∧ totalSpent [] = 0) ∧
    ∀ ps : List Purchase,
      (calculateTotalsByPaymentMethod ps).bank + (calculateTotalsByPaymentMethod ps).credit +
          (calculateTotalsByPaymentMethod ps).cash = totalSpent ps := by
  refine ⟨⟨rfl, rfl⟩, fun ps => ?_⟩
  rw [calculateTotalsByPaymentMethod, totalSpent, foldl_addToTotals_sum, foldl_amount_sum]
  norm_num

/-- `needle` is a prefix of `hay` (character lists). -/
def startsWithChars : List Char → List Char → Bool
  | [], _ => true
  | _ :: _, [] => false
  | a :: as, b :: bs => a == b && startsWithChars as bs

/-- `needle` occurs as a contiguous substring of `hay` (character lists);
the empty needle always occurs, as with JavaScript `includes`. -/
def containsChars (needle : List Char) : List Char → Bool
  | [] => startsWithChars needle []
  | c :: t => startsWithChars needle (c :: t) || containsChars needle t

/-- JavaScript `hay.toLowerCase().includes(needle.toLowerCase())`. -/
def includesLower (hay needle : String) : Bool :=
  containsChars needle.toLower.toList hay.toLower.toList

/-- The three filter controls of the budget-purchases page: the search text,
the payment-method select (`"all" | "bank" | "credit" | "cash"`), and the
date select (`"all" | "today" | "week" | "month"`), all strings as in the
source. -/
structure FilterCriteria where
  searchTerm : String
  paymentMethodFilter : String
  dateFilter : String
  deriving DecidableEq

/-- The current instant as used by `filterPurchases`: the civil components
JavaScript's `getFullYear()/getMonth()/getDate()` return plus the remaining
time of day in milliseconds. -/
structure NowClock where
  y : ℤ
  m : ℤ
  d : ℤ
  tod : ℤ
  deriving DecidableEq

/-- `now.getTime()` for a `NowClock`. -/
def nowTime (n : NowClock) : ℤ :=
  dateMs n.y n.m n.d 0 0 0 0 + n.tod

/-- `filterPurchases` from the budget-purchases page: successively applies
the search filter (when the search term is non-empty), the payment-method
filter (when not `"all"`), and the date filter (a `switch` over
`"today" | "week" | "month"`, anything else filtering nothing). -/
def filterPurchases (n : NowClock) (c : FilterCriteria) (purchases : List Purchase) :
    List Purchase :=
  let f1 := if c.searchTerm ≠ "" then
      purchases.filter fun p => includesLower p.description c.searchTerm
    else purchases
  let f2 := if c.paymentMethodFilter ≠ "all" then
      f1.filter fun p => pmString p.payment_method == c.paymentMethodFilter
    else f1
  if c.dateFilter ≠ "all" then
    if c.dateFilter = "today" then
      f2.filter fun p => decide (dateMs n.y n.m n.d 0 0 0 0 ≤ p.purchase_date)
    else if c.dateFilter = "week" then
      f2.filter fun p => decide (nowTime n - 7 * 24 * 60 * 60 * 1000 ≤ p.purchase_date)
    else if c.dateFilter = "month" then
      f2.filter fun p => decide (nowTime n - 30 * 24 * 60 * 60 * 1000 ≤ p.purchase_date)
    else f2
  else f2

/-- The filter's acceptance condition as a single predicate (read off the
source's three stages), used to normalize `filterPurchases` into one
`List.filter`. -/
def keepPurchase (n : NowClock) (c : FilterCriteria) (p : Purchase) : Bool :=
  (if c.searchTerm ≠ "" then includesLower p.description c.searchTerm else true) &&
  (if c.paymentMethodFilter ≠ "all" then pmString p.payment_method == c.paymentMethodFilter
   else true) &&
  (if c.dateFilter ≠ "all" then
    if c.dateFilter = "today" then decide (dateMs n.y n.m n.d 0 0 0 0 ≤ p.purchase_date)
    else if c.dateFilter = "week" then
      decide (nowTime n - 7 * 24 * 60 * 60 * 1000 ≤ p.purchase_date)
    else if c.dateFilter = "month" then
      decide (nowTime n - 30 * 24 * 60 * 60 * 1000 ≤ p.purchase_date)
    else true
   else true)

theorem filterPurchases_eq_filter (n : NowClock) (c : FilterCriteria) (ps : List Purchase) :
    filterPurchases n c ps = ps.filter (keepPurchase n c) := by
  unfold filterPurchases keepPurchase
  split_ifs <;>
    simp_all [List.filter_filter, Bool.and_comm, Bool.and_left_comm, Bool.and_assoc]

/-- C5: the purchase filter with all criteria at their defaults (empty search
text, payment method `"all"`, date window `"all"`) returns the input list
unchanged, and filtering is idempotent: re-filtering an already-filtered list
with the same criteria (and the same current instant) changes nothing. -/
theorem c5_filter_identity_and_idempotent :
    (∀ (n : NowClock) (ps : List Purchase),
      filterPurchases n ⟨"", "all", "all"⟩ ps = ps) ∧
    (∀ (n : NowClock) (c : FilterCriteria) (ps : List Purchase),
      filterPurchases n c (filterPurchases n c ps) = filterPurchases n c ps) := by
  constructor
  · intro n ps
    simp [filterPurchases]
  · intro n c ps
    rw [filterPurchases_eq_filter, filterPurchases_eq_filter, List.filter_filter]
    simp

/-- The spec's §4.4 acceptance rule, stated in its own words: a purchase is
kept iff its description contains the search text case-insensitively (when
the text is non-empty), its payment method equals the method criterion (when
not `"all"`), and its purchase date meets the window threshold (today: start
of the current day; week: now minus 7 days; month: now minus 30 days; `"all"`
disables the window). -/
def matchesCriteria (n : NowClock) (c : FilterCriteria) (p : Purchase) : Bool :=
  (decide (c.searchTerm = "") || includesLower p.description c.searchTerm) &&
  (decide (c.paymentMethodFilter = "all") || pmString p.payment_method == c.paymentMethodFilter) &&
  (c.dateFilter == "all" ||
    (c.dateFilter == "today" && decide (dateMs n.y n.m n.d 0 0 0 0 ≤ p.purchase_date)) ||
    (c.dateFilter == "week" && decide (nowTime n - 7 * 24 * 60 * 60 * 1000 ≤ p.purchase_date)) ||
    (c.dateFilter == "month" && decide (nowTime n - 30 * 24 * 60 * 60 * 1000 ≤ p.purchase_date)))

/-- C7: for every criteria whose date window is one of the four documented
values, the filter keeps exactly the purchases satisfying the conjunctive
rule `matchesCriteria` (text, method and window conditions), and the output
is a sublist of the input — relative order is preserved, nothing is
re-sorted. -/
theorem c7_filter_conjunctive_and_ordered :
    ∀ (n : NowClock) (c : FilterCriteria) (ps : List Purchase),
      c.dateFilter = "all" ∨ c.dateFilter = "today" ∨ c.dateFilter = "week" ∨
        c.dateFilter = "month" →
      filterPurchases n c ps = ps.filter (matchesCriteria n c) ∧
        List.Sublist (filterPurchases n c ps) ps := by
  intro n c ps hd
  rw [filterPurchases_eq_filter]
  refine ⟨List.filter_congr fun p _ => ?_, List.filter_sublist ps⟩
  rcases hd with h | h | h | h <;> simp [keepPurchase, matchesCriteria, h]

/-- Witness for `c7_filter_conjunctive_and_ordered` at a concrete instant,
the payment-method criterion `"cash"` with a `"week"` window, and a
one-purchase list. -/
theorem c7_filter_conjunctive_and_ordered_witness :
    ((("week" : String) = "all" ∨ ("week" : String) = "today" ∨
        ("week" : String) = "week" ∨ ("week" : String) = "month") ∧
      filterPurchases ⟨2024, 2, 10, 0⟩ ⟨"", "cash", "week"⟩
          [⟨"p1", "b1", 5, "coffee", .cash, 0⟩] =
        List.filter (matchesCriteria ⟨2024, 2, 10, 0⟩ ⟨"", "cash", "week"⟩)
          [⟨"p1", "b1", 5, "coffee", .cash, 0⟩] ∧
      List.Sublist
        (filterPurchases ⟨2024, 2, 10, 0⟩ ⟨"", "cash", "week"⟩
          [⟨"p1", "b1", 5, "coffee", .cash, 0⟩])
        [⟨"p1", "b1", 5, "coffee", .cash, 0⟩]) :=
  ⟨Or.inr (Or.inr (Or.inl rfl)),
    (c7_filter_conjunctive_and_ordered ⟨2024, 2, 10, 0⟩ ⟨"", "cash", "week"⟩
      [⟨"p1", "b1", 5, "coffee", .cash, 0⟩] (Or.inr (Or.inr (Or.inl rfl)))).1,
    (c7_filter_conjunctive_and_ordered ⟨2024, 2, 10, 0⟩ ⟨"", "cash", "week"⟩
      [⟨"p1", "b1", 5, "coffee", .cash, 0⟩] (Or.inr (Or.inr (Or.inl rfl)))).2⟩

/-! ## Form validation: create budget, edit budget, add purchase -/

/-- JavaScript `String.prototype.trim()`: strip leading and trailing
whitespace (structural on the character list, so it computes by reduction). -/
def jsTrim (s : String) : String :=
  String.mk (((s.toList.dropWhile Char.isWhitespace).reverse.dropWhile
    Char.isWhitespace).reverse)

/-- A text-input string destined for `parseFloat`: empty, non-numeric, or
numeric with value `q`. -/
inductive NumStr where
  | empty
  | bad
  | val (q : ℚ)
  deriving DecidableEq

/-- A JavaScript number that may be `NaN`. -/
inductive JsNum where
  | nan
  | num (q : ℚ)
  deriving DecidableEq

/-- `parseFloat` on a text input: the empty and non-numeric strings give
`NaN`. -/
def parseFloat : NumStr → JsNum
  | .empty => .nan
  | .bad => .nan
  | .val q => .num q

/-- JavaScript string truthiness: only the empty string is falsy. -/
def strTruthy : NumStr → Bool
  | .empty => false
  | .bad => true
  | .val _ => true

/-- The budget-type selector of the create-budget modal. -/
inductive BudgetType where
  | fixed
  | percentage
  | hybrid
  deriving DecidableEq

/-- The row the create-budget modal inserts. -/
structure BudgetData where
  name : String
  fixed_amount : Option ℚ
  percentage_amount : Option ℚ
  deriving DecidableEq

/-- The validation flow of `handleSubmit` in the create-budget modal: name
required; on the fixed path `isNaN(a) || a <= 0` rejects; on the percentage
path `isNaN(p) || p <= 0 || p > 100` rejects; the hybrid path checks both.
Returns the inserted row or the error message set by the source. -/
def createBudgetSubmit (name : String) (budgetType : BudgetType)
    (fixedAmount percentageAmount : NumStr) : Except String BudgetData :=
  if jsTrim name = "" then .error "Please enter a budget name"
  else
    match budgetType with
    | .fixed =>
        match parseFloat fixedAmount with
        | .nan => .error "Please enter a valid fixed amount"
        | .num a =>
            if a ≤ 0 then .error "Please enter a valid fixed amount"
            else .ok ⟨jsTrim name, some a, none⟩
    | .percentage =>
        match parseFloat percentageAmount with
        | .nan => .error "Please enter a percentage between 1 and 100"
        | .num q =>
            if q ≤ 0 ∨ 100 < q then .error "Please enter a percentage between 1 and 100"
            else .ok ⟨jsTrim name, none, some q⟩
    | .hybrid =>
        match parseFloat fixedAmount with
        | .nan => .error "Please enter a valid fixed amount"
        | .num a =>
            if a ≤ 0 then .error "Please enter a valid fixed amount"
            else
              match parseFloat percentageAmount with
              | .nan => .error "Please enter a percentage between 1 and 100"
              | .num q =>
                  if q ≤ 0 ∨ 100 < q then
                    .error "Please enter a percentage between 1 and 100"
                  else .ok ⟨jsTrim name, some a, some q⟩

/-- The row the edit-budget modal sends as update (numbers may be `NaN`
before validation, as in the source). -/
structure UpdateData where
  name : String
  fixed_amount : Option JsNum
  percentage_amount : Option JsNum
  deriving DecidableEq

/-- The validation flow of `handleEditSubmit` in the edit-budget modal: name
required; a provided fixed amount (`editFixed` truthy) is rejected when
`isNaN(f) || f < 0`; a provided percentage is rejected when
`isNaN(p) || p < 0 || p > 100`. -/
def handleEditSubmit (editName : String) (editFixed editPercent : NumStr) :
    Except String UpdateData :=
  if jsTrim editName = "" then .error "Please enter a budget name"
  else
    let fixedVal : Option JsNum :=
      if strTruthy editFixed then some (parseFloat editFixed) else none
    let percentVal : Option JsNum :=
      if strTruthy editPercent then some (parseFloat editPercent) else none
    if (match fixedVal with
        | none => false
        | some .nan => true
        | some (.num q) => decide (q < 0)) then
      .error "Fixed amount must be a positive number"
    else if (match percentVal with
        | none => false
        | some .nan => true
        | some (.num q) => decide (q < 0 ∨ 100 < q)) then
      .error "Percentage must be between 0 and 100"
    else .ok ⟨jsTrim editName, fixedVal, percentVal⟩

/-- Whether a submission passed validation (reached the insert/update call). -/
def submissionOk {α : Type} : Except String α → Bool
  | .ok _ => true
  | .error _ => false

/-- C8: the create and edit paths bound provided amounts differently, exactly
as documented — create accepts a provided fixed amount iff it is strictly
positive and a provided percentage iff it lies in `(0, 100]`; edit accepts a
provided fixed amount iff it is non-negative and a provided percentage iff it
lies in `[0, 100]`. -/
theorem c8_create_vs_edit_bounds :
    ∀ q : ℚ,
      submissionOk (createBudgetSubmit "b" .fixed (.val q) .empty) = decide (0 < q) ∧
      submissionOk (createBudgetSubmit "b" .percentage .empty (.val q)) =
        decide (0 < q ∧ q ≤ 100) ∧
      submissionOk (handleEditSubmit "b" (.val q) .empty) = decide (0 ≤ q) ∧
      submissionOk (handleEditSubmit "b" .empty (.val q)) = decide (0 ≤ q ∧ q ≤ 100) := by
  intro q
  have hname : jsTrim "b" = "b" := by decide
  refine ⟨?_, ?_, ?_, ?_⟩
  · rcases le_or_lt q 0 with h | h
    · simp [createBudgetSubmit, parseFloat, submissionOk, hname, h, h.not_lt]
    · simp [createBudgetSubmit, parseFloat, submissionOk, hname, h, h.not_le]
  · rcases le_or_lt q 0 with h | h
    · have hc : ¬(0 < q ∧ q ≤ 100) := fun hc => absurd hc.1 h.not_lt
      simp [createBudgetSubmit, parseFloat, submissionOk, hname, h, hc]
    · rcases le_or_lt q 100 with h2 | h2
      · simp [createBudgetSubmit, parseFloat, submissionOk, hname, h.not_le, h2.not_lt, h, h2]
      · have hc : ¬(0 < q ∧ q ≤ 100) := fun hc => absurd hc.2 h2.not_le
        simp [createBudgetSubmit, parseFloat, submissionOk, hname, h2, hc]
  · rcases lt_or_le q 0 with h | h
    · simp [handleEditSubmit, parseFloat, strTruthy, submissionOk, hname, h, h.not_le]
    · simp [handleEditSubmit, parseFloat, strTruthy, submissionOk, hname, h.not_lt, h]
  · rcases lt_or_le q 0 with h | h
    · have hc : ¬(0 ≤ q ∧ q ≤ 100) := fun hc => absurd hc.1 h.not_le
      simp [handleEditSubmit, parseFloat, strTruthy, submissionOk, hname, h, hc]
    · rcases le_or_lt q 100 with h2 | h2
      · simp [handleEditSubmit, parseFloat, strTruthy, submissionOk, hname, h.not_lt, h2.not_lt,
          h, h2]
      · have hc : ¬(0 ≤ q ∧ q ≤ 100) := fun hc => absurd hc.2 h2.not_le
        simp [handleEditSubmit, parseFloat, strTruthy, submissionOk, hname, h2, hc]

/-- The row the add-purchase modal inserts. -/
structure PurchaseInsert where
  budget_id : String
  amount : ℚ
  description : String
  payment_method : PaymentMethod
  purchase_date : ℤ
  deriving DecidableEq

/-- The validation flow of `handleSubmit` in the add-purchase modal, as a
transition on the stored purchase list: `parseFloat(amount)` must be a number
and strictly positive, otherwise the error is set and no insert happens;
when it passes, the row is inserted. -/
def addPurchaseSubmit (db : List PurchaseInsert) (budgetId : String) (amount : NumStr)
    (description : String) (paymentMethod : PaymentMethod) (purchaseDate : ℤ) :
    List PurchaseInsert × Option String :=
  match parseFloat amount with
  | .nan => (db, some "Please enter a valid amount")
  | .num a =>
      if a ≤ 0 then (db, some "Please enter a valid amount")
      else (db ++ [⟨budgetId, a, description, paymentMethod, purchaseDate⟩], none)

/-- C9: whenever the entered amount parses to `NaN` or to a non-positive
number, the add-purchase submission returns the validation error and leaves
the stored purchase list unchanged — the insert mutation is never applied. -/
theorem c9_invalid_amount_rejected_atomically :
    ∀ (db : List PurchaseInsert) (bid : String) (amt : NumStr) (desc : String)
      (pm : PaymentMethod) (pd : ℤ),
      (∀ a : ℚ, parseFloat amt = .num a → a ≤ 0) →
      addPurchaseSubmit db bid amt desc pm pd = (db, some "Please enter a valid amount") := by
  intro db bid amt desc pm pd hbad
  match h : parseFloat amt with
  | .nan => simp [addPurchaseSubmit, h]
  | .num a => simp [addPurchaseSubmit, h, hbad a h]

/-- Witness for `c9_invalid_amount_rejected_atomically` at amount `"0"`:
the parsed amount is non-positive and the submission leaves the (empty)
purchase list unchanged with the validation error. -/
theorem c9_invalid_amount_rejected_atomically_witness :
    (∀ a : ℚ, parseFloat (.val 0) = .num a → a ≤ 0) ∧
      addPurchaseSubmit [] "b1" (.val 0) "coffee" .cash 0 =
        ([], some "Please enter a valid amount") :=
  ⟨fun a h => by injection h with h2; exact h2.symm.le,
    c9_invalid_amount_rejected_atomically [] "b1" (.val 0) "coffee" .cash 0
      (fun a h => by injection h with h2; exact h2.symm.le)⟩

end CashyCat
